import Mathlib

/-!
Verification development for the dragonfly-display repository.

The repository is a thin adapter layer: it converts a Dragonfly district model
into a Honeybee room-level model via collaborator calls, forwards presentation
options to collaborator visualization-set builders, post-processes the returned
visualization set (one extra envelope-edge layer), and serializes the result
from the CLI in five output encodings.

The definitions below are a shallow embedding of the two source modules
`dragonfly_display/model.py` and `dragonfly_display/cli/__init__.py`.
Collaborator functions (honeybee-display builders, ladybug-geometry angle
computation, `Model.to_honeybee`, `Color.from_hex`, `os.path` helpers, the
optional ladybug-vtk backend) are not part of this repository; they enter the
embedding as explicit function parameters or opaque data supplied by the
caller, so every theorem quantifies over them.  Python floats are modelled as
exact rationals; `math.pi` is modelled as the exact rational value of the IEEE
double `math.pi`.
-/

namespace DragonflySpec

/-- Rational stand-in for Python floats: 3-component vector
(`ladybug_geometry.geometry3d.Vector3D`). -/
structure Vector3D where
  x : ℚ
  y : ℚ
  z : ℚ
deriving DecidableEq

/-- Rational stand-in for Python floats: 3-component point
(`ladybug_geometry.geometry3d.Point3D`). -/
structure Point3D where
  x : ℚ
  y : ℚ
  z : ℚ
deriving DecidableEq

/-- Embedding of `ladybug.color.Color`: r, g, b, a channels (the Python class
defaults `a` to 255). -/
structure Color where
  r : ℕ
  g : ℕ
  b : ℕ
  a : ℕ
deriving DecidableEq

/-- Embedding of `ladybug_geometry` `LineSegment3D`: base point `p` and
direction vector `v`.  The source only ever reads the `.v` attribute of the
classified envelope edges. -/
structure LineSegment3D where
  p : Point3D
  v : Vector3D
deriving DecidableEq

/-- Embedding of `ladybug_display.geometry3d.DisplayLineSegment3D`: a wrapped
segment, a display color and a line width. -/
structure DisplayLineSegment3D where
  geometry : LineSegment3D
  color : Color
  line_width : ℚ
deriving DecidableEq

/-- Embedding of `ladybug_display.visualization.ContextGeometry` as far as the
source inspects it: an identifier, a display name and a list of display
segments.  Layers produced by the collaborator builder are arbitrary values of
this type. -/
structure ContextGeometry where
  identifier : String
  display_name : String
  geometry : List DisplayLineSegment3D
deriving DecidableEq

/-- Exact rational value of the IEEE-754 double `math.pi`
(3.141592653589793115997963...). -/
def math_pi : ℚ := 884279719003555 / 281474976710656

/-- Embedding of `math.radians`: degrees to radians conversion. -/
def radians (degrees : ℚ) : ℚ := degrees * math_pi / 180

/-- The `up_vec = Vector3D(0, 0, 1)` constant from
`model_envelope_edges_to_vis_set` (model.py line 218). -/
def up_vec : Vector3D := ⟨0, 0, 1⟩

/-- The `min_ang` bound from model.py line 219:
`(math.pi / 2) - math.radians(model.angle_tolerance)`. -/
def min_angle (angle_tolerance : ℚ) : ℚ := math_pi / 2 - radians angle_tolerance

/-- The `max_ang` bound from model.py line 220:
`(math.pi / 2) + math.radians(model.angle_tolerance)`. -/
def max_angle (angle_tolerance : ℚ) : ℚ := math_pi / 2 + radians angle_tolerance

/-- The `Color(200, 255, 200)` literal from model.py line 217 (the ladybug
`Color` constructor defaults alpha to 255). -/
def floor_plate_color : Color := ⟨200, 255, 200, 255⟩

/-- String constant: the coplanar option `"All"`. -/
def all_type : String := "All"

/-- String constant: the coplanar option `"None"`. -/
def none_type : String := "None"

/-- String constant: the coplanar option `"FloorPlatesOnly"`. -/
def floor_plates_only : String := "FloorPlatesOnly"

/-- String constant: the layer identifier `"Interior_Floors_to_Walls"`
(`edge_id` at model.py line 230). -/
def interior_floors_id : String := "Interior_Floors_to_Walls"

/-- String constant: an underscore, the pattern of
`edge_id.replace('_', ' ')` at model.py line 233. -/
def underscore_text : String := "_"

/-- String constant: a space, the replacement of
`edge_id.replace('_', ' ')` at model.py line 233. -/
def space_text : String := " "

/-- Embedding of model.py line 211:
`exclude_coplanar = False if coplanar_type == 'All' else True`. -/
def exclude_coplanar (coplanar_type : String) : Bool :=
  if coplanar_type = "All" then false else true

/-- Membership test of model.py line 236:
`geo.identifier in ('Walls_to_Walls', 'Roof_Ridges', 'Roofs_to_Roofs')`. -/
def is_target_geo (g : ContextGeometry) : Bool :=
  g.identifier == "Walls_to_Walls" || g.identifier == "Roof_Ridges" ||
    g.identifier == "Roofs_to_Roofs"

/-- Embedding of the scan loop at model.py lines 234-238: enumerate the
visualization set layers from index `k` and return the index of the first
layer whose identifier is one of the three target identifiers (the loop
breaks at the first match; `insert_index` stays `None` when nothing
matches). -/
def scan_insert_index_aux : ℕ → List ContextGeometry → Option ℕ
  | _, [] => Option.none
  | k, g :: rest =>
    if is_target_geo g then some k else scan_insert_index_aux (k + 1) rest

/-- The scan loop of model.py lines 234-238 started at index 0. -/
def scan_insert_index (vis_set : List ContextGeometry) : Option ℕ :=
  scan_insert_index_aux 0 vis_set

/-- Modelled from the spec: the collaborator `VisualizationSet.add_geometry`
(ladybug-display, not part of this repository).  The spec describes the
visualization set as an insertable ordered container: the geometry is inserted
at the given index when one is supplied, and appended at the end when the
index is `None`. -/
def add_geometry (vis_set : List ContextGeometry) (geo : ContextGeometry) :
    Option ℕ → List ContextGeometry
  | Option.none => vis_set ++ [geo]
  | some i => vis_set.insertIdx i geo

/-- Embedding of the filter loop at model.py lines 224-227: keep an edge of
`ext_walls_to_walls` when `min_ang <= up_vec.angle(edge.v) <= max_ang`.  The
collaborator angle computation `Vector3D.angle` is a parameter. -/
def interior_floor_plate_filter (angle : Vector3D → Vector3D → ℚ)
    (min_ang max_ang : ℚ) : List LineSegment3D → List LineSegment3D
  | [] => []
  | edge :: rest =>
    if min_ang ≤ angle up_vec edge.v ∧ angle up_vec edge.v ≤ max_ang then
      edge :: interior_floor_plate_filter angle min_ang max_ang rest
    else
      interior_floor_plate_filter angle min_ang max_ang rest

/-- Embedding of model.py lines 228-229: wrap each filtered segment in
`DisplayLineSegment3D(seg, color, 2)`. -/
def display_edges_of (segs : List LineSegment3D) : List DisplayLineSegment3D :=
  segs.map (fun seg => ⟨seg, floor_plate_color, 2⟩)

/-- Embedding of model.py lines 230-233: the `Interior_Floors_to_Walls`
context geometry built from the filtered segments, with
`display_name = edge_id.replace('_', ' ')`. -/
def interior_floors_con_geo (segs : List LineSegment3D) : ContextGeometry :=
  ⟨interior_floors_id, interior_floors_id.replace underscore_text space_text,
    display_edges_of segs⟩

/-- Python values that can arrive as the `coplanar_type` argument: the `None`
object or a string.  The source coerces the argument with `str(...)` at
model.py line 210. -/
inductive CoplanarInput where
  | py_none : CoplanarInput
  | py_str : String → CoplanarInput
deriving DecidableEq

/-- Embedding of the Python `str(...)` coercion at model.py line 210:
`str(None)` is the string `"None"`; a string coerces to itself. -/
def str_coerce : CoplanarInput → String
  | CoplanarInput.py_none => "None"
  | CoplanarInput.py_str s => s

/-- Embedding of the envelope-edge post-processing of
`model_envelope_edges_to_vis_set` (model.py lines 209-241).  Collaborator
inputs are parameters:

* `vis_of b` is the visualization set returned by the honeybee-display
  builder `hb_model_envelope_edges_to_vis_set(hb_model, b, mullion_thickness)`
  for `exclude_coplanar = b`;
* `ext_walls_to_walls` is the fourth component of
  `hb_model.classified_envelope_edges(exclude_coplanar=False)` (line 222-223);
* `angle` is the collaborator `Vector3D.angle` computation;
* `angle_tolerance` is `model.angle_tolerance` (in degrees, as in the source).
-/
def model_envelope_edges_to_vis_set (vis_of : Bool → List ContextGeometry)
    (ext_walls_to_walls : List LineSegment3D)
    (angle : Vector3D → Vector3D → ℚ) (angle_tolerance : ℚ)
    (coplanar_input : CoplanarInput) : List ContextGeometry :=
  let coplanar_type := str_coerce coplanar_input
  let vis_set := vis_of (exclude_coplanar coplanar_type)
  if coplanar_type = "FloorPlatesOnly" then
    let filtered := interior_floor_plate_filter angle
      (min_angle angle_tolerance) (max_angle angle_tolerance) ext_walls_to_walls
    let display_edges := display_edges_of filtered
    if display_edges.length ≠ 0 then
      add_geometry vis_set (interior_floors_con_geo filtered)
        (scan_insert_index vis_set)
    else vis_set
  else vis_set

/-! ## CLI output formatter (`cli/__init__.py`, `_output_vis_set_to_format`) -/

/-- Python exception values that the formatter can raise or observe. -/
inductive PyError where
  | valueError : String → PyError
  | attributeError : String → PyError
deriving DecidableEq

/-- Data written to files or streams: Python `str` or `bytes` payloads
(bytes are modelled as lists of naturals). -/
inductive PyData where
  | str : String → PyData
  | bytes : List ℕ → PyData
deriving DecidableEq

/-- The `output_file` argument of `_output_vis_set_to_format`: the Python
`None` object (return the contents in memory), a string path, or an opened
file object carrying a `.name` attribute (the CLI passes `sys.stdout`, whose
name is `"<stdout>"`). -/
inductive OutFile where
  | memory : OutFile
  | path : String → OutFile
  | handle : String → OutFile
deriving DecidableEq

/-- Observable side effects of the formatter, in order of execution:
opening a path for writing, writing data to an opened path, writing data to a
file object (by its name), the collaborator calls `vis_set.to_pkl`,
`vis_set.to_vtkjs` and `vis_set.to_html`, and reading a file back. -/
inductive Action where
  | openW : String → Action
  | writeFile : String → PyData → Action
  | writeHandle : String → PyData → Action
  | toPkl : String → String → Action
  | toVtkjs : String → String → Action
  | toHtml : String → String → Action
  | readFile : String → Action
deriving DecidableEq

/-- Environment of collaborator data and functions for the formatter:
serialized payloads of `vis_set.to_dict()`, availability of the optional
ladybug-vtk backend, the opaque message of the `AttributeError` raised when
the backend is missing, the `uuid.uuid4()` string, `tempfile.gettempdir()`,
the file contents the backend writes, `base64.b64encode(...).decode('utf-8')`
and the `os.path.split` / `os.path.join` helpers. -/
structure FmtEnv where
  json_str : String
  pkl_bytes : List ℕ
  has_vtk : Bool
  ae_msg : String
  uuid_str : String
  temp_dir : String
  vtkjs_content : List ℕ
  html_content : String
  b64 : List ℕ → String
  os_path_split : String → String × String
  os_path_join : String → String → String

/-- Model of the Python `str.lower()` call at cli line 400: lower-case every
character (for the ASCII format strings handled here this per-character map
is exactly Python's behavior). -/
def str_lower (s : String) : String := ⟨s.data.map Char.toLower⟩

/-- String constant: the stdout sentinel name `"<stdout>"`. -/
def stdout_name : String := "<stdout>"

/-- String constant: the `".vtkjs"` extension stripped at cli line 429. -/
def vtkjs_ext : String := ".vtkjs"

/-- String constant: the `".html"` extension stripped at cli line 431. -/
def html_ext : String := ".html"

/-- String constant: a dot, used to build `out_file + '.' + output_format`. -/
def dot_text : String := "."

/-- String constant: the message head of the wrapped backend error at cli
lines 439-441 (the source formats the opaque error after the newline). -/
def vtkjs_error_message : String :=
  "Ladybug-vtk must be installed in order to use --output-format vtkjs.\n"

/-- String constant: the dependency name that the wrapped error mentions. -/
def ladybug_vtk_text : String := "Ladybug-vtk"

/-- Embedding of cli lines 438-441: the caught backend `AttributeError` is
re-raised with the clarifying message prepended. -/
def wrap_vtk_error (ae : String) : String := vtkjs_error_message ++ ae

/-- Message of the Python `AttributeError` produced when `.write` is looked
up on a string object (the `pkl` branch at cli lines 412-414 calls
`output_file.write(...)` while `output_file` is the path string). -/
def str_no_write_msg : String := "str object has no attribute write"

/-- String constant: head of the `ValueError` message at cli line 459. -/
def unrecognized_head : String := "Unrecognized output-format \""

/-- String constant: tail of the `ValueError` message at cli line 459. -/
def unrecognized_tail : String := "\"."

/-- The five recognized output formats of `_output_vis_set_to_format`. -/
def valid_output_formats : List String := ["vsf", "json", "pkl", "vtkjs", "html"]

/-- Embedding of the body of `_output_vis_set_to_format` (cli lines 399-459)
after the reassignment `output_format = output_format.lower()`: dispatch on
the lowered format string.  The result pairs the ordered list of performed
side effects with either the returned value (`Except.ok`) or the raised
Python exception (`Except.error`).  `Except.ok Option.none` is Python
falling off the function (returning `None`). -/
def output_format_dispatch (env : FmtEnv) (fmt : String) (output_file : OutFile) :
    List Action × Except PyError (Option PyData) :=
  if fmt = "vsf" ∨ fmt = "json" then
    match output_file with
    | OutFile.memory => ([], Except.ok (some (PyData.str env.json_str)))
    | OutFile.path p =>
      ([Action.openW p, Action.writeFile p (PyData.str env.json_str)],
        Except.ok Option.none)
    | OutFile.handle n =>
      ([Action.writeHandle n (PyData.str env.json_str)], Except.ok Option.none)
  else if fmt = "pkl" then
    match output_file with
    | OutFile.memory => ([], Except.ok (some (PyData.bytes env.pkl_bytes)))
    | OutFile.path p =>
      -- cli lines 412-414: the file is opened, but the write is performed on
      -- the path string itself (`output_file.write`), which raises
      -- AttributeError before anything is written.
      ([Action.openW p], Except.error (PyError.attributeError str_no_write_msg))
    | OutFile.handle n =>
      if n = "<stdout>" then
        ([Action.writeHandle n (PyData.bytes env.pkl_bytes)], Except.ok Option.none)
      else
        let sp := env.os_path_split n
        ([Action.toPkl sp.2 sp.1], Except.ok Option.none)
  else if fmt = "vtkjs" ∨ fmt = "html" then
    let stdout_like : Bool :=
      match output_file with
      | OutFile.memory => true
      | OutFile.path _ => false
      | OutFile.handle n => n == "<stdout>"
    let folder_file : String × String :=
      if stdout_like then (env.temp_dir, env.uuid_str.take 6)
      else
        let f_path :=
          match output_file with
          | OutFile.memory => ""
          | OutFile.path p => p
          | OutFile.handle n => n
        let sp := env.os_path_split f_path
        let out_file :=
          if sp.2.endsWith vtkjs_ext then sp.2.dropRight 6
          else if sp.2.endsWith html_ext then sp.2.dropRight 5
          else sp.2
        (sp.1, out_file)
    if env.has_vtk then
      let act :=
        if fmt = "vtkjs" then Action.toVtkjs folder_file.1 folder_file.2
        else Action.toHtml folder_file.1 folder_file.2
      if stdout_like then
        let out_file_path :=
          env.os_path_join folder_file.1 (folder_file.2 ++ dot_text ++ fmt)
        let f_contents : PyData :=
          if fmt = "html" then PyData.str env.html_content
          else PyData.str (env.b64 env.vtkjs_content)
        match output_file with
        | OutFile.memory =>
          ([act, Action.readFile out_file_path], Except.ok (some f_contents))
        | _ =>
          ([act, Action.readFile out_file_path,
            Action.writeHandle stdout_name f_contents], Except.ok Option.none)
      else ([act], Except.ok Option.none)
    else
      -- the backend method lookup raises AttributeError, caught and
      -- re-raised with the clarifying message (cli lines 433-441)
      ([], Except.error (PyError.attributeError (wrap_vtk_error env.ae_msg)))
  else
    ([], Except.error (PyError.valueError
      (unrecognized_head ++ fmt ++ unrecognized_tail)))

/-- Embedding of `_output_vis_set_to_format` (cli lines 389-459): lower the
format string (line 400), then dispatch. -/
def _output_vis_set_to_format (env : FmtEnv) (output_format : String)
    (output_file : OutFile) : List Action × Except PyError (Option PyData) :=
  output_format_dispatch env (str_lower output_format) output_file

/-! ## Room-model conversion invocations (`model.py` call sites of
`to_honeybee`) -/

/-- Arguments forwarded to the collaborator `Model.to_honeybee` by the three
translation functions.  `merge_method` is `Option.none` when the call site
does not pass the keyword (the collaborator default applies). -/
structure HoneybeeConversionOptions where
  object_per_model : String
  use_multiplier : Bool
  exclude_plenums : Bool
  solve_ceiling_adjacencies : Bool
  merge_method : Option String
  enforce_adj : Bool
  enforce_solid : Bool
deriving DecidableEq

/-- Arguments of the `to_honeybee` call in `model_to_vis_set`
(model.py lines 115-118). -/
def model_to_vis_set_honeybee_args (use_multiplier exclude_plenums
    solve_ceiling_adjacencies : Bool) (merge_method : String) :
    HoneybeeConversionOptions :=
  ⟨"District", use_multiplier, exclude_plenums, solve_ceiling_adjacencies,
    some merge_method, false, true⟩

/-- Arguments of the `to_honeybee` call in `model_envelope_edges_to_vis_set`
(model.py lines 205-207): fixed `use_multiplier=False`,
`exclude_plenums=True`, `solve_ceiling_adjacencies=True` and no
`merge_method` keyword. -/
def envelope_edges_honeybee_args : HoneybeeConversionOptions :=
  ⟨"District", false, true, true, Option.none, false, true⟩

/-- Arguments of the `to_honeybee` call for the base model in
`model_comparison_to_vis_set` (model.py lines 305-309). -/
def comparison_base_honeybee_args (use_multiplier exclude_plenums
    solve_ceiling_adjacencies : Bool) (merge_method : String) :
    HoneybeeConversionOptions :=
  ⟨"District", use_multiplier, exclude_plenums, solve_ceiling_adjacencies,
    some merge_method, false, true⟩

/-- Arguments of the `to_honeybee` call for the incoming model in
`model_comparison_to_vis_set` (model.py lines 310-314). -/
def comparison_incoming_honeybee_args (use_multiplier exclude_plenums
    solve_ceiling_adjacencies : Bool) (merge_method : String) :
    HoneybeeConversionOptions :=
  ⟨"District", use_multiplier, exclude_plenums, solve_ceiling_adjacencies,
    some merge_method, false, true⟩

/-- Embedding of the `[0]` subscript applied to the sequence returned by
`to_honeybee` at every call site: the model at index 0 (Python would raise
`IndexError` on an empty sequence, modelled as `Option.none`). -/
def first_honeybee_model {α : Type} (models : List α) : Option α := models[0]?

/-! ## Coordinate reset (`model.py` lines 107-113 and 297-303) -/

/-- The attributes of a Dragonfly `Model` that the coordinate-reset code
reads: bounding corners, average height and average height above ground. -/
structure DFModel where
  min : Point3D
  max : Point3D
  average_height : ℚ
  average_height_above_ground : ℚ
deriving DecidableEq

/-- Embedding of the center computation at model.py lines 110-112 (identical
at lines 299-301): `z_val = average_height - average_height_above_ground` and
`center = Point3D((max.x + min.x) / 2, (max.y + min.y) / 2, z_val)`. -/
def reset_center (m : DFModel) : Point3D :=
  ⟨(m.max.x + m.min.x) / 2, (m.max.y + m.min.y) / 2,
    m.average_height - m.average_height_above_ground⟩

/-- Embedding of the single-model reset block at model.py lines 107-113:
duplicate the model, compute the center from the duplicate, reset the
duplicate in place.  `duplicate` and `reset` are collaborator methods. -/
def model_reset_step (duplicate : DFModel → DFModel)
    (reset : DFModel → Point3D → DFModel) (model : DFModel) : DFModel :=
  let m := duplicate model
  reset m (reset_center m)

/-- Embedding of the comparison reset block at model.py lines 297-303: both
models are reset in place with the single center computed from the base
model. -/
def comparison_reset_step (reset : DFModel → Point3D → DFModel)
    (base_model incoming_model : DFModel) : DFModel × DFModel :=
  let center := reset_center base_model
  (reset base_model center, reset incoming_model center)

/-! ## Comparison colors (`cli/__init__.py` lines 372-383) -/

/-- String constant: the default base-model color hex `"#74eded"`. -/
def default_base_color_hex : String := "#74eded"

/-- String constant: the default incoming-model color hex `"#ed7474"`. -/
def default_incoming_color_hex : String := "#ed7474"

/-- Embedding of cli lines 375-378: parse both colors from their hex strings
with the collaborator `Color.from_hex` and assign both a fixed alpha of 128
(`base_color.a = 128`, `incoming_color.a = 128`). -/
def process_comparison_colors (from_hex : String → Color)
    (base_color_hex incoming_color_hex : String) : Color × Color :=
  let base_color := from_hex base_color_hex
  let incoming_color := from_hex incoming_color_hex
  (⟨base_color.r, base_color.g, base_color.b, 128⟩,
    ⟨incoming_color.r, incoming_color.g, incoming_color.b, 128⟩)

/-! ## Concrete inputs used by the witness theorems -/

/-- Concrete line segment used by witnesses. -/
def witness_segment : LineSegment3D := ⟨⟨0, 0, 0⟩, ⟨1, 0, 0⟩⟩

/-- Concrete collaborator angle function used by witnesses: every angle is
exactly pi / 2 (a perfectly horizontal edge). -/
def witness_angle : Vector3D → Vector3D → ℚ := fun _ _ => math_pi / 2

/-- Concrete collaborator layer that is not one of the three scan targets. -/
def witness_other_geo : ContextGeometry := ⟨"Roofs_to_Walls", "Roofs to Walls", []⟩

/-- Concrete collaborator layer whose identifier is the scan target
`Walls_to_Walls`. -/
def witness_wall_geo : ContextGeometry := ⟨"Walls_to_Walls", "Walls to Walls", []⟩

/-- Concrete collaborator visualization-set builder used by witnesses. -/
def witness_vis_of : Bool → List ContextGeometry :=
  fun _ => [witness_other_geo, witness_wall_geo]

/-- Concrete opaque message of the backend `AttributeError` used by
witnesses. -/
def backend_err_text : String := "backend error"

/-- Concrete formatter environment with the ladybug-vtk backend missing. -/
def witness_env_novtk : FmtEnv :=
  ⟨"", [], false, backend_err_text, "", "", [], "", fun _ => "",
    fun s => ("", s), fun a b => a ++ b⟩

/-- Concrete formatter environment with the ladybug-vtk backend present. -/
def witness_env : FmtEnv :=
  ⟨"", [], true, backend_err_text, "", "", [], "", fun _ => "",
    fun s => ("", s), fun a b => a ++ b⟩

/-- String constant: an upper-case variant of the `vsf` format. -/
def upper_vsf : String := "VSF"

/-- String constant: the lower-case `vsf` format. -/
def vsf_format : String := "vsf"

/-- String constant: the `pkl` format. -/
def pkl_format : String := "pkl"

/-- String constant: the `vtkjs` format. -/
def vtkjs_format : String := "vtkjs"

/-- String constant: the `html` format. -/
def html_format : String := "html"

/-- String constant: an unrecognized format string. -/
def xml_format : String := "xml"

/-- String constant: a concrete output path used by counterexamples. -/
def model_pkl_path : String := "model.pkl"

/-- String constant: an unrecognized coplanar type used by witnesses. -/
def junk_type : String := "Junk"

/-- String constant: the tail of the wrapped backend error message after the
dependency name. -/
def vtk_tail_text : String :=
  " must be installed in order to use --output-format vtkjs.\n"

/-! ## Helper lemmas -/

/-- Membership characterization of the filter loop of model.py lines 224-227:
an edge is kept exactly when it occurs in the input and its angle to the up
vector lies in the closed interval. -/
theorem mem_interior_floor_plate_filter (angle : Vector3D → Vector3D → ℚ)
    (min_ang max_ang : ℚ) (l : List LineSegment3D) (e : LineSegment3D) :
    e ∈ interior_floor_plate_filter angle min_ang max_ang l ↔
      e ∈ l ∧ min_ang ≤ angle up_vec e.v ∧ angle up_vec e.v ≤ max_ang := by
  induction l with
  | nil => simp [interior_floor_plate_filter]
  | cons a rest ih =>
    by_cases h : min_ang ≤ angle up_vec a.v ∧ angle up_vec a.v ≤ max_ang
    · simp only [interior_floor_plate_filter, if_pos h, List.mem_cons, ih]
      constructor
      · rintro (rfl | ⟨he, hp⟩)
        · exact ⟨Or.inl rfl, h⟩
        · exact ⟨Or.inr he, hp⟩
      · rintro ⟨rfl | he, hp⟩
        · exact Or.inl rfl
        · exact Or.inr ⟨he, hp⟩
    · simp only [interior_floor_plate_filter, if_neg h, ih, List.mem_cons]
      constructor
      · rintro ⟨he, hp⟩
        exact ⟨Or.inr he, hp⟩
      · rintro ⟨rfl | he, hp⟩
        · exact absurd hp h
        · exact ⟨he, hp⟩

/-- The scan loop finds nothing when no layer matches a target identifier. -/
theorem scan_insert_index_aux_eq_none (l : List ContextGeometry) :
    ∀ k : ℕ, (∀ g ∈ l, is_target_geo g = false) →
      scan_insert_index_aux k l = Option.none := by
  induction l with
  | nil => intro k _; rfl
  | cons g rest ih =>
    intro k h
    have hg : is_target_geo g = false := h g (List.mem_cons_self g rest)
    simp only [scan_insert_index_aux, hg, Bool.false_eq_true, if_false]
    exact ih (k + 1) fun x hx => h x (List.mem_cons_of_mem g hx)

/-- The scan loop returns the offset index of the first matching layer. -/
theorem scan_insert_index_aux_first (pre : List ContextGeometry) :
    ∀ (k : ℕ) (g : ContextGeometry) (post : List ContextGeometry),
      (∀ x ∈ pre, is_target_geo x = false) → is_target_geo g = true →
      scan_insert_index_aux k (pre ++ g :: post) = some (k + pre.length) := by
  induction pre with
  | nil =>
    intro k g post _ hg
    simp [scan_insert_index_aux, hg]
  | cons a pre ih =>
    intro k g post hpre hg
    have ha : is_target_geo a = false := hpre a (List.mem_cons_self a pre)
    simp only [List.cons_append, scan_insert_index_aux, ha, Bool.false_eq_true,
      if_false]
    rw [show pre.append (g :: post) = pre ++ g :: post from rfl,
      ih (k + 1) g post (fun x hx => hpre x (List.mem_cons_of_mem a hx)) hg]
    congr 1
    simp only [List.length_cons]
    omega

/-- Inserting at the length of a prefix places the element between the prefix
and the rest. -/
theorem insertIdx_length_append {α : Type} (pre : List α) :
    ∀ (x : α) (rest : List α),
      (pre ++ rest).insertIdx pre.length x = pre ++ x :: rest := by
  induction pre with
  | nil => intro x rest; rfl
  | cons a pre ih =>
    intro x rest
    simp only [List.cons_append, List.length_cons, List.insertIdx_succ_cons, ih]

/-- The concrete witness angle (exactly pi / 2) lies inside the closed
tolerance window for a 1-degree angle tolerance. -/
theorem witness_angle_in_window :
    min_angle 1 ≤ witness_angle up_vec witness_segment.v ∧
      witness_angle up_vec witness_segment.v ≤ max_angle 1 := by
  constructor <;>
    norm_num [witness_angle, min_angle, max_angle, radians, math_pi]

/-- The filter loop keeps the single concrete witness segment. -/
theorem witness_filter_eq :
    interior_floor_plate_filter witness_angle (min_angle 1) (max_angle 1)
      [witness_segment] = [witness_segment] := by
  simp only [interior_floor_plate_filter, if_pos witness_angle_in_window]

/-! ## Claim theorems -/

/-- C1: with coplanar_type `FloorPlatesOnly`, the `Interior_Floors_to_Walls`
layer is added to the visualization set iff the filtered segment list is
non-empty; when added it is placed immediately before the first layer (in
scan order) whose identifier is `Walls_to_Walls`, `Roof_Ridges` or
`Roofs_to_Roofs`, and appended at the end when no such layer exists. -/
theorem claim1 (vis_of : Bool → List ContextGeometry)
    (w2w : List LineSegment3D) (angle : Vector3D → Vector3D → ℚ) (tol : ℚ) :
    (interior_floor_plate_filter angle (min_angle tol) (max_angle tol) w2w = [] →
      model_envelope_edges_to_vis_set vis_of w2w angle tol
        (CoplanarInput.py_str floor_plates_only) = vis_of true) ∧
    (interior_floor_plate_filter angle (min_angle tol) (max_angle tol) w2w ≠ [] →
      ((∀ g ∈ vis_of true, is_target_geo g = false) →
        model_envelope_edges_to_vis_set vis_of w2w angle tol
            (CoplanarInput.py_str floor_plates_only)
          = vis_of true ++ [interior_floors_con_geo
              (interior_floor_plate_filter angle (min_angle tol) (max_angle tol) w2w)]) ∧
      (∀ (pre : List ContextGeometry) (g : ContextGeometry)
          (post : List ContextGeometry),
        vis_of true = pre ++ g :: post →
        (∀ x ∈ pre, is_target_geo x = false) → is_target_geo g = true →
        model_envelope_edges_to_vis_set vis_of w2w angle tol
            (CoplanarInput.py_str floor_plates_only)
          = pre ++ interior_floors_con_geo
              (interior_floor_plate_filter angle (min_angle tol) (max_angle tol) w2w)
              :: g :: post)) := by
  have hunf : model_envelope_edges_to_vis_set vis_of w2w angle tol
      (CoplanarInput.py_str floor_plates_only)
      = if (display_edges_of (interior_floor_plate_filter angle (min_angle tol)
            (max_angle tol) w2w)).length ≠ 0 then
          add_geometry (vis_of true)
            (interior_floors_con_geo (interior_floor_plate_filter angle
              (min_angle tol) (max_angle tol) w2w))
            (scan_insert_index (vis_of true))
        else vis_of true := rfl
  constructor
  · intro hF
    rw [hunf, hF]
    simp [display_edges_of]
  · intro hF
    have hlen : (display_edges_of (interior_floor_plate_filter angle
        (min_angle tol) (max_angle tol) w2w)).length ≠ 0 := by
      simpa [display_edges_of, List.length_eq_zero] using hF
    constructor
    · intro hnone
      have hscan : scan_insert_index (vis_of true) = Option.none :=
        scan_insert_index_aux_eq_none (vis_of true) 0 hnone
      rw [hunf, if_pos hlen, hscan]
      rfl
    · intro pre g post hsplit hpre hg
      have hscan : scan_insert_index (vis_of true) = some pre.length := by
        rw [scan_insert_index, hsplit]
        simpa using scan_insert_index_aux_first pre 0 g post hpre hg
      rw [hunf, if_pos hlen, hscan]
      show (vis_of true).insertIdx pre.length _ = _
      rw [hsplit]
      exact insertIdx_length_append pre _ (g :: post)

/-- C1 witness: a concrete model with one near-horizontal wall-to-wall edge
and a `Walls_to_Walls` layer preceded by one other layer; the new layer lands
immediately before `Walls_to_Walls`. -/
theorem claim1_witness :
    model_envelope_edges_to_vis_set witness_vis_of [witness_segment]
        witness_angle 1 (CoplanarInput.py_str floor_plates_only)
      = [witness_other_geo,
          interior_floors_con_geo [witness_segment], witness_wall_geo] := by
  have hne : interior_floor_plate_filter witness_angle (min_angle 1)
      (max_angle 1) [witness_segment] ≠ [] := by
    rw [witness_filter_eq]
    simp
  have h := (claim1 witness_vis_of [witness_segment] witness_angle 1).2 hne
  have h2 := h.2 [witness_other_geo] witness_wall_geo [] (by rfl)
    (by decide) (by decide)
  rw [h2, witness_filter_eq]
  rfl

/-- C2 counterexample: the claimed mapping says that coplanar_type `None`
includes all coplanar edges (`exclude_coplanar = False`) and `All` excludes
none (`exclude_coplanar = False`); the code maps `None` to
`exclude_coplanar = True`. -/
theorem claim2_counterexample :
    ¬ (exclude_coplanar none_type = false ∧
        exclude_coplanar all_type = false) := by
  decide

/-- C2 amended: `exclude_coplanar` is `False` exactly for coplanar_type
`All`; `None`, `FloorPlatesOnly` and every other value map to `True` (so
`None` excludes all coplanar edges, `All` excludes none, and
`FloorPlatesOnly` also passes `True` and gets its special extra layer). -/
theorem claim2 :
    exclude_coplanar all_type = false ∧
    exclude_coplanar none_type = true ∧
    exclude_coplanar floor_plates_only = true ∧
    ∀ coplanar_type : String, coplanar_type ≠ all_type →
      exclude_coplanar coplanar_type = true := by
  refine ⟨by decide, by decide, by decide, ?_⟩
  intro ct h
  unfold exclude_coplanar
  rw [if_neg (show ¬ ct = "All" from h)]

/-- C2 witness: a value different from `All` maps to `True`. -/
theorem claim2_witness : exclude_coplanar interior_floors_id = true :=
  claim2.2.2.2 interior_floors_id (by decide)

/-- C4: an edge of the recomputed wall-to-wall set is kept by the
`FloorPlatesOnly` filter iff its angle to the vertical unit vector lies in
the closed interval from pi / 2 minus the (degree-to-radian converted) model
angle tolerance to pi / 2 plus it. -/
theorem claim4 (angle : Vector3D → Vector3D → ℚ) (tol : ℚ)
    (w2w : List LineSegment3D) (e : LineSegment3D) :
    min_angle tol = math_pi / 2 - radians tol ∧
    max_angle tol = math_pi / 2 + radians tol ∧
    (e ∈ interior_floor_plate_filter angle (min_angle tol) (max_angle tol) w2w ↔
      e ∈ w2w ∧ min_angle tol ≤ angle up_vec e.v ∧
        angle up_vec e.v ≤ max_angle tol) :=
  ⟨rfl, rfl, mem_interior_floor_plate_filter angle (min_angle tol)
    (max_angle tol) w2w e⟩

/-- C4 witness: a concrete horizontal edge (angle exactly pi / 2) is kept
with angle tolerance 1 degree. -/
theorem claim4_witness :
    witness_segment ∈ interior_floor_plate_filter witness_angle
      (min_angle 1) (max_angle 1) [witness_segment] :=
  (claim4 witness_angle 1 [witness_segment] witness_segment).2.2.mpr
    ⟨by simp, witness_angle_in_window.1, witness_angle_in_window.2⟩

/-- C10: `model_envelope_edges_to_vis_set` never validates coplanar_type:
any value whose string coercion is neither `All` nor `FloorPlatesOnly`
(including the Python `None` object, which coerces to the string `None`)
behaves exactly as `None` does: `exclude_coplanar` is `True`, the
visualization set of the collaborator is returned unchanged (no
`Interior_Floors_to_Walls` layer is computed or added), and the embedding is
total (no error is raised locally). -/
theorem claim10 (vis_of : Bool → List ContextGeometry)
    (w2w : List LineSegment3D) (angle : Vector3D → Vector3D → ℚ) (tol : ℚ)
    (v : CoplanarInput) (h_all : str_coerce v ≠ all_type)
    (h_fpo : str_coerce v ≠ floor_plates_only) :
    exclude_coplanar (str_coerce v) = true ∧
    model_envelope_edges_to_vis_set vis_of w2w angle tol v = vis_of true ∧
    model_envelope_edges_to_vis_set vis_of w2w angle tol v
      = model_envelope_edges_to_vis_set vis_of w2w angle tol
          CoplanarInput.py_none ∧
    str_coerce CoplanarInput.py_none = none_type := by
  have hec : exclude_coplanar (str_coerce v) = true := by
    unfold exclude_coplanar
    rw [if_neg (show ¬ str_coerce v = "All" from h_all)]
  have hpipe : model_envelope_edges_to_vis_set vis_of w2w angle tol v
      = vis_of true := by
    simp only [model_envelope_edges_to_vis_set]
    rw [if_neg (show ¬ str_coerce v = "FloorPlatesOnly" from h_fpo), hec]
  have hnone : model_envelope_edges_to_vis_set vis_of w2w angle tol
      CoplanarInput.py_none = vis_of true := rfl
  exact ⟨hec, hpipe, by rw [hpipe, hnone], rfl⟩

/-- C10 witness: the unrecognized string `Junk` leaves the collaborator
visualization set unchanged. -/
theorem claim10_witness :
    model_envelope_edges_to_vis_set witness_vis_of [witness_segment]
        witness_angle 1 (CoplanarInput.py_str junk_type)
      = witness_vis_of true :=
  (claim10 witness_vis_of [witness_segment] witness_angle 1
    (CoplanarInput.py_str junk_type) (by decide) (by decide)).2.1

/-- C3: evaluation of the `pkl` branch at a string-path output target.  The
source (cli lines 412-414) opens the file and then calls `.write` on the path
string itself instead of the opened handle, so it raises `AttributeError` and
nothing is written and nothing is delegated to `to_pkl` — contradicting the
claim that a named-file target is serialized via the collaborator
file-writer without raising. -/
theorem claim3 (env : FmtEnv) :
    _output_vis_set_to_format env pkl_format (OutFile.path model_pkl_path)
      = ([Action.openW model_pkl_path],
          Except.error (PyError.attributeError str_no_write_msg)) := rfl

/-- C5: the output formatter lowers the format string first, so any
case-variant of a valid format behaves identically to its lowercase form,
and every string whose lowering is not one of the five valid formats raises
a `ValueError` with an empty action trace (no file I/O happened). -/
theorem claim5 (env : FmtEnv) (out : OutFile) :
    (∀ fmt lf : String, lf ∈ valid_output_formats → str_lower fmt = lf →
      _output_vis_set_to_format env fmt out
        = _output_vis_set_to_format env lf out) ∧
    (∀ fmt : String, str_lower fmt ∉ valid_output_formats →
      _output_vis_set_to_format env fmt out
        = ([], Except.error (PyError.valueError
            (unrecognized_head ++ str_lower fmt ++ unrecognized_tail)))) := by
  constructor
  · intro fmt lf hmem hlow
    have hfix : str_lower lf = lf := by
      fin_cases hmem <;> decide
    simp only [_output_vis_set_to_format, hlow, hfix]
  · intro fmt hmem
    simp only [valid_output_formats, List.mem_cons, List.not_mem_nil,
      or_false, not_or] at hmem
    obtain ⟨h1, h2, h3, h4, h5⟩ := hmem
    simp only [_output_vis_set_to_format, output_format_dispatch,
      if_neg (show ¬ (str_lower fmt = "vsf" ∨ str_lower fmt = "json") from by
        tauto),
      if_neg h3,
      if_neg (show ¬ (str_lower fmt = "vtkjs" ∨ str_lower fmt = "html") from by
        tauto)]

/-- C5 witness: the upper-case variant `VSF` behaves as `vsf`, and `xml`
fails with a `ValueError` and no I/O. -/
theorem claim5_witness :
    _output_vis_set_to_format witness_env upper_vsf OutFile.memory
        = _output_vis_set_to_format witness_env vsf_format OutFile.memory ∧
    _output_vis_set_to_format witness_env xml_format OutFile.memory
        = ([], Except.error (PyError.valueError
            (unrecognized_head ++ xml_format ++ unrecognized_tail))) :=
  ⟨(claim5 witness_env OutFile.memory).1 upper_vsf vsf_format (by decide)
      (by decide),
    (claim5 witness_env OutFile.memory).2 xml_format (by decide)⟩

/-- C6: every `to_honeybee` call site in the three translation functions
passes `enforce_adj=False` and `enforce_solid=True`, and the result selection
takes the model at index 0 of the returned sequence, independently of any
additional models. -/
theorem claim6 (α : Type) (m : α) (rest other : List α) :
    (∀ (um ep sca : Bool) (mm : String),
      (model_to_vis_set_honeybee_args um ep sca mm).enforce_adj = false ∧
      (model_to_vis_set_honeybee_args um ep sca mm).enforce_solid = true ∧
      (comparison_base_honeybee_args um ep sca mm).enforce_adj = false ∧
      (comparison_base_honeybee_args um ep sca mm).enforce_solid = true ∧
      (comparison_incoming_honeybee_args um ep sca mm).enforce_adj = false ∧
      (comparison_incoming_honeybee_args um ep sca mm).enforce_solid = true) ∧
    envelope_edges_honeybee_args.enforce_adj = false ∧
    envelope_edges_honeybee_args.enforce_solid = true ∧
    first_honeybee_model (m :: rest) = some m ∧
    first_honeybee_model (m :: rest) = first_honeybee_model (m :: other) := by
  refine ⟨fun _ _ _ _ => ⟨rfl, rfl, rfl, rfl, rfl, rfl⟩, rfl, rfl, ?_, ?_⟩ <;>
    simp [first_honeybee_model]

/-- C7: for the `vtkjs` and `html` formats with the ladybug-vtk backend
unavailable, the formatter raises an `AttributeError` whose message starts
with the missing dependency name `Ladybug-vtk`, and which differs from the
opaque backend error message. -/
theorem claim7 (env : FmtEnv) (out : OutFile) (fmt : String)
    (hv : env.has_vtk = false)
    (hf : str_lower fmt = vtkjs_format ∨ str_lower fmt = html_format) :
    _output_vis_set_to_format env fmt out
      = ([], Except.error (PyError.attributeError (wrap_vtk_error env.ae_msg))) ∧
    (∃ rest : String,
      wrap_vtk_error env.ae_msg = ladybug_vtk_text ++ rest) ∧
    wrap_vtk_error env.ae_msg ≠ env.ae_msg := by
  refine ⟨?_, ?_, ?_⟩
  · rcases hf with h | h <;>
      · simp only [_output_vis_set_to_format, h]
        simp [output_format_dispatch, hv, vtkjs_format, html_format]
  · refine ⟨vtk_tail_text ++ env.ae_msg, ?_⟩
    rw [wrap_vtk_error,
      show vtkjs_error_message = ladybug_vtk_text ++ vtk_tail_text by decide,
      String.append_assoc]
  · intro heq
    have hlen := congrArg String.length heq
    rw [wrap_vtk_error, String.length_append] at hlen
    have h0 : vtkjs_error_message.length = 0 := by omega
    exact absurd h0 (by decide)

/-- C7 witness: concrete evaluation with the backend missing for the `vtkjs`
format and a memory target. -/
theorem claim7_witness :
    _output_vis_set_to_format witness_env_novtk vtkjs_format OutFile.memory
      = ([], Except.error (PyError.attributeError
          (wrap_vtk_error backend_err_text))) :=
  (claim7 witness_env_novtk OutFile.memory vtkjs_format rfl
    (Or.inl (by decide))).1

/-- C8: the reset center is the point (midpoint of the x extents, midpoint
of the y extents, average height minus average height above ground); the
single-model reset duplicates the model and resets the duplicate with its
own center, and comparison mode resets both models in place with the single
center computed from the base model alone. -/
theorem claim8 (reset : DFModel → Point3D → DFModel)
    (duplicate : DFModel → DFModel) (base incoming model : DFModel) :
    reset_center base
      = ⟨base.min.x + (base.max.x - base.min.x) / 2,
          base.min.y + (base.max.y - base.min.y) / 2,
          base.average_height - base.average_height_above_ground⟩ ∧
    model_reset_step duplicate reset model
      = reset (duplicate model) (reset_center (duplicate model)) ∧
    comparison_reset_step reset base incoming
      = (reset base (reset_center base),
          reset incoming (reset_center base)) := by
  have hx : (base.max.x + base.min.x) / 2
      = base.min.x + (base.max.x - base.min.x) / 2 := by ring
  have hy : (base.max.y + base.min.y) / 2
      = base.min.y + (base.max.y - base.min.y) / 2 := by ring
  refine ⟨?_, rfl, rfl⟩
  unfold reset_center
  rw [hx, hy]

/-- C9: the comparison colors are parsed from their hex strings (with the
documented defaults) and both are assigned a fixed alpha of 128 regardless
of the parsed alpha, while the parsed r, g, b channels are preserved. -/
theorem claim9 (from_hex : String → Color)
    (base_color_hex incoming_color_hex : String) :
    (process_comparison_colors from_hex base_color_hex incoming_color_hex).1.a
      = 128 ∧
    (process_comparison_colors from_hex base_color_hex incoming_color_hex).2.a
      = 128 ∧
    (process_comparison_colors from_hex base_color_hex incoming_color_hex).1
      = ⟨(from_hex base_color_hex).r, (from_hex base_color_hex).g,
          (from_hex base_color_hex).b, 128⟩ ∧
    (process_comparison_colors from_hex base_color_hex incoming_color_hex).2
      = ⟨(from_hex incoming_color_hex).r, (from_hex incoming_color_hex).g,
          (from_hex incoming_color_hex).b, 128⟩ ∧
    default_base_color_hex = "#74eded" ∧
    default_incoming_color_hex = "#ed7474" :=
  ⟨rfl, rfl, rfl, rfl, rfl, rfl⟩

end DragonflySpec
